import Mathlib

/-
Verification of the health-metric evaluation and comparison engine of
health_app/views.py (generate_health_overview, generate_comparison_table,
generate_summary_info and their helpers), shallowly embedded in Lean.

Conventions of the embedding:
* Decimal database values (bmi, fat_percent, waist, lab values, ...) are
  embedded as rationals (ℚ); blood-pressure readings are integers (ℤ),
  ages are naturals (ℕ), matching the field types the spec records.
* Nullable lab fields are Option ℚ.  Python evaluates `if record.x:` by
  truthiness, so a stored Decimal zero behaves like an absent value; the
  `truthy` predicate below captures exactly that.
* Bootstrap colour classes and hex colour codes are kept as the literal
  strings of the source ("success", "warning", "danger", "#28a745", ...).
* The overview builder appends a block of items per metric; each block is
  embedded as a function returning the List of items that the block
  appends, and generate_health_overview concatenates the blocks in source
  order.
-/

namespace HealthApp

/-- One entry of the overview list, as built by create_item(text, color, severity)
in generate_health_overview. -/
structure Item where
  text : String
  color : String
  severity : String
deriving DecidableEq, Repr

/-- create_item(text, color, severity); the source defaults color to info and
severity to normal, and every call site of the overview passes the colour
explicitly, so both are positional arguments here. -/
def create_item (text : String) (color : String) (severity : String) : Item :=
  ⟨text, color, severity⟩

/-- profile.gender is the binary enum of the source data. -/
inductive Gender where
  | male : Gender
  | female : Gender
deriving DecidableEq, Repr

/-- Blood-pressure block of generate_health_overview (the if/elif chain on
systolic and diastolic, views.py lines 108-131).  Each branch appends two
items with the same colour; a pair matched by no branch appends nothing. -/
def bpOverview (systolic diastolic : ℤ) : List Item :=
  if systolic < 120 ∧ diastolic < 80 then
    [create_item "คุณมีความดันโลหิตในระดับเหมาะสม" "success" "normal",
     create_item "คำแนะนำ: ควบคุมอาหาร, มีกิจกรรมทางกาย และวัดความดันสม่ำเสมอ" "success" "normal"]
  else if 120 ≤ systolic ∧ systolic ≤ 129 ∧ 80 ≤ diastolic ∧ diastolic ≤ 84 then
    [create_item "คุณมีความดันโลหิตในระดับปกติ" "success" "normal",
     create_item "คำแนะนำ: ควบคุมอาหาร, มีกิจกรรมทางกาย และวัดความดันสม่ำเสมอ" "success" "normal"]
  else if (130 ≤ systolic ∧ systolic ≤ 139) ∨ (85 ≤ diastolic ∧ diastolic ≤ 89) then
    [create_item "คุณมีความดันโลหิตสูงกว่าปกติ" "warning" "normal",
     create_item "คำแนะนำ: ลดน้ำหนักหากมีน้ำหนักเกิน, หลีกเลี่ยงความเครียด บุหรี่, มีกิจกรรมทางกายอย่างสม่ำเสมอ, ลดการกินเค็ม" "warning" "normal"]
  else if (140 ≤ systolic ∧ systolic ≤ 159) ∨ (90 ≤ diastolic ∧ diastolic ≤ 99) then
    [create_item "คุณอาจเป็นโรคความดันโลหิตสูงระดับที่ 1" "warning" "normal",
     create_item "คำแนะนำ: ควรรีบปรึกษาแพทย์เพื่อรับการวินิจฉัยและรับการรักษาที่เหมาะสม รวมถึงเข้าสู่กระบวนการปรับเปลี่ยนพฤติกรรม" "warning" "normal"]
  else if (160 ≤ systolic ∧ systolic ≤ 179) ∨ (100 ≤ diastolic ∧ diastolic ≤ 109) then
    [create_item "คุณอาจเป็นโรคความดันโลหิตสูงระดับที่ 2" "warning" "normal",
     create_item "คำแนะนำ: ควรรีบปรึกษาแพทย์เพื่อรับการวินิจฉัยและรับการรักษาที่เหมาะสม รวมถึงเข้าสู่กระบวนการปรับเปลี่ยนพฤติกรรม" "warning" "normal"]
  else if 180 ≤ systolic ∨ 110 ≤ diastolic then
    [create_item "คุณอาจเป็นโรคความดันโลหิตสูงระดับที่ 3" "danger" "normal",
     create_item "คำแนะนำ: ควรรีบพบแพทย์ทันที" "danger" "normal"]
  else if 140 ≤ systolic ∧ diastolic < 90 then
    [create_item "คุณอาจเป็นโรคความดันโลหิตสูงเฉพาะตัวบน" "danger" "normal",
     create_item "คำแนะนำ: ควรปรึกษาบุคลากรทางการแพทย์" "danger" "normal"]
  else if systolic < 140 ∧ 90 ≤ diastolic then
    [create_item "คุณอาจเป็นโรคความดันโลหิตสูงเฉพาะตัวล่าง" "danger" "normal",
     create_item "คำแนะนำ: ควรปรึกษาบุคลากรทางการแพทย์" "danger" "normal"]
  else []

/-- Colour (severity class) of the joint blood-pressure classification:
the colour of the items the blood-pressure block appends, none when the
chain matches no branch.  Both items of a branch share one colour. -/
def bpColor (systolic diastolic : ℤ) : Option String :=
  (bpOverview systolic diastolic).head?.map Item.color

/-- Waist block of generate_health_overview (views.py lines 133-143):
threshold is height/2, |waist - threshold| < 1 counts as normal. -/
def waistOverview (waist height : ℚ) : List Item :=
  let waist_threshold := height / 2
  if |waist - waist_threshold| < 1 then
    [create_item "เส้นรอบเอวของคุณอยู่ในเกณฑ์ปกติ" "success" "normal"]
  else if waist > waist_threshold then
    [create_item "เส้นรอบเอวของคุณเกินเกณฑ์" "danger" "normal"]
  else
    [create_item "รอบเอวของคุณอยู่ในเกณฑ์ดีมาก" "success" "normal"]

/-- BMI block of generate_health_overview (views.py lines 146-157).  The
final else of the chain is the catch-all branch the source comments
`# bmi > 30`. -/
def bmiOverview (bmi : ℚ) : List Item :=
  if bmi < 18.5 then
    [create_item "น้อยกว่าปกติ/ผอม - ภาวะเสี่ยงต่อโรค มากกว่าคนปกติ" "warning" "normal"]
  else if 18.5 ≤ bmi ∧ bmi ≤ 22.9 then
    [create_item "ปกติ/สุขภาพดี - ภาวะเสี่ยงต่อโรค เท่ากับคนปกติ" "success" "normal"]
  else if 23 ≤ bmi ∧ bmi ≤ 24.9 then
    [create_item "ท้วม มีภาวะน้ำหนักเกินหรือโรคอ้วนระดับ 1 แนะนำให้ดูมวลกล้ามเนื้อประกอบด้วย - ภาวะเสี่ยงต่อโรค อันตรายระดับ 1 " "warning" "normal"]
  else if 25 ≤ bmi ∧ bmi ≤ 30 then
    [create_item "อ้วน มีภาวะน้ำหนักเกินหรือโรคอ้วนระดับ 2 - ภาวะเสี่ยงต่อโรค อันตรายระดับ 2 " "warning" "normal"]
  else
    [create_item "อ้วนมาก มีภาวะน้ำหนักเกินมากอย่างมากหรือโรคอ้วนระดับ 3 - ภาวะเสี่ยงต่อโรค อันตรายระดับ 3" "danger" "normal"]

/-- Colour of the BMI classification (the BMI block appends exactly one item). -/
def bmiColor (bmi : ℚ) : Option String :=
  (bmiOverview bmi).head?.map Item.color

/-- Fat-percent block of generate_health_overview (views.py lines 160-180),
sex-banded; values matched by no branch append nothing. -/
def fatOverview (gender : Gender) (fat : ℚ) : List Item :=
  match gender with
  | .female =>
    if 5 ≤ fat ∧ fat ≤ 19.9 then
      [create_item "เปอร์เซ็นต์ไขมัน: ต่ำ" "success" "normal"]
    else if 20 ≤ fat ∧ fat ≤ 29.9 then
      [create_item "เปอร์เซ็นต์ไขมัน: ปกติ" "success" "normal"]
    else if 30 ≤ fat ∧ fat ≤ 34.5 then
      [create_item "เปอร์เซ็นต์ไขมัน: เริ่มอ้วน " "warning" "normal"]
    else if 35 ≤ fat ∧ fat ≤ 50 then
      [create_item "เปอร์เซ็นต์ไขมัน: อ้วน - คุณมีไขมันในร่างกายมากเกินไป " "danger" "normal"]
    else []
  | .male =>
    if 5 ≤ fat ∧ fat ≤ 9.9 then
      [create_item "เปอร์เซ็นต์ไขมัน: ต่ำ" "success" "normal"]
    else if 10 ≤ fat ∧ fat ≤ 19.9 then
      [create_item "เปอร์เซ็นต์ไขมัน: ปกติ" "success" "normal"]
    else if 20 ≤ fat ∧ fat ≤ 24.9 then
      [create_item "เปอร์เซ็นต์ไขมัน: เริ่มอ้วน " "warning" "normal"]
    else if 25 ≤ fat ∧ fat ≤ 50 then
      [create_item "เปอร์เซ็นต์ไขมัน: อ้วน - คุณมีไขมันในร่างกายมากเกินไป " "danger" "normal"]
    else []

/-- Visceral-fat block of generate_health_overview (views.py lines 182-189). -/
def vfOverview (vf : ℚ) : List Item :=
  if 1 ≤ vf ∧ vf ≤ 9 then
    [create_item "ไขมันในช่องท้อง: ปกติ" "success" "normal"]
  else if 10 ≤ vf ∧ vf ≤ 14 then
    [create_item "ไขมันในช่องท้อง: สูง - คุณมีภาวะเสี่ยงจากการมีไขมันช่องท้องสูง" "warning" "normal"]
  else if 15 ≤ vf ∧ vf ≤ 30 then
    [create_item "ไขมันในช่องท้อง: สูงมาก - คุณมีภาวะเสี่ยงอันตรายจากการมีไขมันช่องท้องมากผิดปกติ" "danger" "normal"]
  else []

/-- The four muscle-percent tiers; every one of the six sex/age bands uses
the same four item texts, so the tier determines the appended item. -/
inductive MTier where
  | low : MTier
  | normal : MTier
  | high : MTier
  | veryHigh : MTier
deriving DecidableEq, Repr

/-- Order of the tiers, low < normal < high < very-high. -/
def MTier.rank : MTier → ℕ
  | .low => 0
  | .normal => 1
  | .high => 2
  | .veryHigh => 3

/-- One sex/age band of the muscle-percent chain: muscle < c1 → low;
c1 ≤ muscle ≤ c2 → normal; c3 ≤ muscle ≤ c4 → high; muscle ≥ c5 → very-high;
otherwise (the gaps between c2 and c3 and between c4 and c5) nothing.
Every band of views.py lines 195-250 instantiates this shape with its own
five literal cut points. -/
def bandClassify (c1 c2 c3 c4 c5 : ℚ) (muscle : ℚ) : Option MTier :=
  if muscle < c1 then some .low
  else if c1 ≤ muscle ∧ muscle ≤ c2 then some .normal
  else if c3 ≤ muscle ∧ muscle ≤ c4 then some .high
  else if c5 ≤ muscle then some .veryHigh
  else none

/-- Muscle-percent classification of generate_health_overview (views.py
lines 192-250): sex dispatch, then the three age bands 18-39 / 40-59 /
60-80 with their literal cut points; ages outside all bands classify
nothing. -/
def muscleClassify (gender : Gender) (age : ℕ) (muscle : ℚ) : Option MTier :=
  match gender with
  | .female =>
    if 18 ≤ age ∧ age ≤ 39 then bandClassify 24.3 30.3 30.4 35.3 35.4 muscle
    else if 40 ≤ age ∧ age ≤ 59 then bandClassify 24.1 30.1 30.2 35.1 35.2 muscle
    else if 60 ≤ age ∧ age ≤ 80 then bandClassify 23.9 29.9 30 34.9 35 muscle
    else none
  | .male =>
    if 18 ≤ age ∧ age ≤ 39 then bandClassify 33.3 39.3 39.4 44 44.1 muscle
    else if 40 ≤ age ∧ age ≤ 59 then bandClassify 33.1 39.1 39.2 43.8 43.9 muscle
    else if 60 ≤ age ∧ age ≤ 80 then bandClassify 32.9 38.9 39 43.6 43.7 muscle
    else none

/-- The item each muscle tier appends; the very-high branches pass the
extra severity argument success, the others leave the default normal. -/
def muscleItem : MTier → Item
  | .low => create_item "มวลกล้ามเนื้อ: ต่ำ - คุณมีมวลกล้ามเนื้อน้อยเกินไป สร้างกล้ามเนื้อโดยเน้น เพิ่มโปรตีนคุณภาพ นอนหลับคุณภาพ ออกกำลังกายแบบบอดี้เวท หรือเวทเทรนนิ่ง" "warning" "normal"
  | .normal => create_item "มวลกล้ามเนื้อ: ปกติ" "success" "normal"
  | .high => create_item "มวลกล้ามเนื้อ: สูง ร่างกายแข็งแรง" "success" "normal"
  | .veryHigh => create_item "มวลกล้ามเนื้อ: สูงมาก - คุณมีมวลกล้ามเนื้อในระดับนักกีฬา ร่างกายแข็งแรง พยายามรักษาพฤติกรรมสุขภาพต่อไป" "success" "success"

/-- Muscle-percent block of generate_health_overview: the item of the
matched tier, nothing when no band matches. -/
def muscleOverview (gender : Gender) (age : ℕ) (muscle : ℚ) : List Item :=
  (muscleClassify gender age muscle).elim [] (fun t => [muscleItem t])

/-- Python truthiness of a nullable Decimal field (`if record.x:`): false
exactly when the value is absent or stored as zero. -/
def truthy : Option ℚ → Bool
  | none => false
  | some v => decide (v ≠ 0)

/-- Cholesterol block of generate_health_overview (views.py lines 252-258);
guarded by `if record.cholesterol:` (truthiness). -/
def cholOverview : Option ℚ → List Item
  | none => []
  | some chol =>
    if chol = 0 then []
    else if chol < 200 then
      [create_item "ปริมาณไขมันคอเลสเตอรอลอยู่ในระดับปกติ" "success" "normal"]
    else
      [create_item "ปริมาณไขมันคอเลสเตอรอลอยู่ในระดับมากผิดปกติ" "warning" "normal"]

/-- LDL block of generate_health_overview (views.py lines 260-266). -/
def ldlOverview : Option ℚ → List Item
  | none => []
  | some ldl =>
    if ldl = 0 then []
    else if ldl < 130 then
      [create_item "ไขมันไม่ดีอยู่ในระดับปกติ" "success" "normal"]
    else
      [create_item "ปริมาณไขมันไม่ดีอยู่ในระดับมากผิดปกติ" "warning" "normal"]

/-- HDL block of generate_health_overview (views.py lines 268-280), with
the sex-specific cut point. -/
def hdlOverview (gender : Gender) : Option ℚ → List Item
  | none => []
  | some hdl =>
    if hdl = 0 then []
    else
      match gender with
      | .male =>
        if hdl > 40 then
          [create_item "ปริมาณไขมันดีอยู่ในระดับปกติ" "success" "normal"]
        else
          [create_item "ปริมาณไขมันดีอยู่ในระดับต่ำกว่าปกติ " "warning" "normal"]
      | .female =>
        if hdl > 50 then
          [create_item "ปริมาณไขมันดีอยู่ในระดับปกติ" "success" "normal"]
        else
          [create_item "ปริมาณไขมันดีอยู่ในระดับต่ำกว่าปกติ " "warning" "normal"]

/-- FBS block of generate_health_overview (views.py lines 282-290). -/
def fbsOverview : Option ℚ → List Item
  | none => []
  | some fbs =>
    if fbs = 0 then []
    else if fbs < 100 then
      [create_item "ระดับน้ำตาลอยู่ในเกณฑ์ปกติ" "success" "normal"]
    else if 100 ≤ fbs ∧ fbs ≤ 125 then
      [create_item "ระดับน้ำตาลในเลือดเสี่ยงเป็นโรคเบาหวานหรือมีภาวะก่อนเบาหวาน" "warning" "normal"]
    else
      [create_item "ระดับน้ำตาลในเลือดอยู่ในเกณฑ์โรคเบาหวาน" "danger" "normal"]

/-- Triglycerides block of generate_health_overview (views.py lines
291-301); the closing else is the branch the source comments `# tg >= 500`. -/
def tgOverview : Option ℚ → List Item
  | none => []
  | some tg =>
    if tg = 0 then []
    else if tg < 150 then
      [create_item "ระดับไตรกลีเซอไรด์อยู่ในเกณฑ์ปกติ" "success" "normal"]
    else if 150 ≤ tg ∧ tg ≤ 199 then
      [create_item "ระดับไตรกลีเซอไรด์อยู่ในเกณฑ์สูงเล็กน้อย ลดอาหารที่มีน้ำตาลและไขมันทรานส์ กินอาหารคาร์บคุณภาพ งด/ลดอาหารแปรรูปขั้นสูง งดเครื่องดื่มแอลกอฮอล์ และทำ IF กินและอดอาหารเป็นช่วงๆ" "warning" "normal"]
    else if 200 ≤ tg ∧ tg ≤ 499 then
      [create_item "ระดับไตรกลีเซอไรด์อยู่ในเกณฑ์สูง ลดอาหารที่มีน้ำตาลและไขมันทรานส์ กินอาหารคาร์บคุณภาพ งด/ลดอาหารแปรรูปขั้นสูง งดเครื่องดื่มแอลกอฮอล์ และทำ IF กินและอดอาหารเป็นช่วงๆ " "warning" "normal"]
    else
      [create_item "ระดับไตรกลีเซอไรด์อยู่ในเกณฑ์สูงมาก ซึ่งอาจเพิ่มความเสี่ยงต่อการเกิดตับอ่อนอักเสบ ควรรีบปรึกษาบุคลากรทางการแพทย์ทันที" "danger" "normal"]

/-- Colour of the triglycerides classification of the overview block, none
when the block appends nothing. -/
def tgColor (x : Option ℚ) : Option String :=
  (tgOverview x).head?.map Item.color

/-- The attributes of a health record consumed by the evaluation and
comparison engine. -/
structure HealthRecord where
  blood_pressure_systolic : ℤ
  blood_pressure_diastolic : ℤ
  height : ℚ
  waist : ℚ
  bmi : ℚ
  fat_percent : ℚ
  visceral_fat : ℚ
  muscle_percent : ℚ
  cholesterol : Option ℚ
  ldl : Option ℚ
  hdl : Option ℚ
  fbs : Option ℚ
  triglycerides : Option ℚ
deriving DecidableEq, Repr

/-- The demographic attributes of a profile consumed by the engine:
gender and the derived integer age. -/
structure Profile where
  gender : Gender
  age : ℕ
deriving DecidableEq, Repr

/-- generate_health_overview(record, profile, ...): the concatenation of
the per-metric blocks in source order. -/
def generate_health_overview (record : HealthRecord) (profile : Profile) : List Item :=
  bpOverview record.blood_pressure_systolic record.blood_pressure_diastolic
    ++ waistOverview record.waist record.height
    ++ bmiOverview record.bmi
    ++ fatOverview profile.gender record.fat_percent
    ++ vfOverview record.visceral_fat
    ++ muscleOverview profile.gender profile.age record.muscle_percent
    ++ cholOverview record.cholesterol
    ++ ldlOverview record.ldl
    ++ hdlOverview profile.gender record.hdl
    ++ fbsOverview record.fbs
    ++ tgOverview record.triglycerides

/-- get_fat_normal_range(profile) of views.py lines 529-534. -/
def get_fat_normal_range (gender : Gender) : ℚ × ℚ :=
  match gender with
  | .female => (20, 29.9)
  | .male => (10, 19.9)

/-- get_muscle_normal_range(profile) of views.py lines 537-555: the age
chain has no 60-80 guard, its final else returns the 60-80 range for every
age outside 18-59. -/
def get_muscle_normal_range (gender : Gender) (age : ℕ) : ℚ × ℚ :=
  match gender with
  | .female =>
    if 18 ≤ age ∧ age ≤ 39 then (24.3, 30.3)
    else if 40 ≤ age ∧ age ≤ 59 then (24.1, 30.1)
    else (23.9, 29.9)
  | .male =>
    if 18 ≤ age ∧ age ≤ 39 then (33.3, 39.3)
    else if 40 ≤ age ∧ age ≤ 59 then (33.1, 39.1)
    else (32.9, 38.9)

/-- get_triglycerides_status(value) of views.py lines 557-568: the module
helper with half-open bands, returning a (label, hex colour) pair, and
(None, None) - here none - for a missing value. -/
def get_triglycerides_status : Option ℚ → Option (String × String)
  | none => none
  | some value =>
    if value < 150 then some ("ปกติ", "#28a745")
    else if 150 ≤ value ∧ value < 200 then some ("สูงกว่าปกติ", "#ffc107")
    else if 200 ≤ value ∧ value < 500 then some ("สูง", "#fd7e14")
    else some ("สูงมาก", "#dc3545")

/-- The severity tier a hex colour of get_triglycerides_status denotes, in
the bootstrap vocabulary of create_item: green #28a745 is success, amber
#ffc107 and orange #fd7e14 are warning shades, red #dc3545 is danger. -/
def tierOfHex (hex : String) : Option String :=
  if hex = "#28a745" then some "success"
  else if hex = "#ffc107" ∨ hex = "#fd7e14" then some "warning"
  else if hex = "#dc3545" then some "danger"
  else none

/-- Severity tier assigned by the helper get_triglycerides_status. -/
def helperTgTier (x : Option ℚ) : Option String :=
  (get_triglycerides_status x).bind (fun p => tierOfHex p.2)

/-- Round to the nearest integer, ties to even - the rounding CPython
applies when formatting with a fixed number of decimals.  (CPython rounds
the binary float, which can differ from exact decimal rounding on ties;
no claim of this development depends on the rendered digits.) -/
def roundHalfEven (q : ℚ) : ℤ :=
  if q - ⌊q⌋ < 1 / 2 then ⌊q⌋
  else if q - ⌊q⌋ > 1 / 2 then ⌊q⌋ + 1
  else if ⌊q⌋ % 2 = 0 then ⌊q⌋ else ⌊q⌋ + 1

/-- Render a nonnegative rational with one decimal digit, as the Python
format {x:.1f} does; only applied to |diff| values. -/
def fmt1 (q : ℚ) : String :=
  toString (roundHalfEven (q * 10) / 10) ++ "." ++ toString (roundHalfEven (q * 10) % 10)

/-- get_comparison_text(diff) of views.py lines 736-743: Thai trend text
from the sign of the difference, with the magnitude at one decimal. -/
def get_comparison_text (diff : ℚ) : String :=
  if diff > 0 then "เพิ่มขึ้น " ++ fmt1 |diff|
  else if diff < 0 then "ลดลง " ++ fmt1 |diff|
  else "เท่าเดิม"

/-- Modelled from the spec: the record status getters (get_bmi_status,
get_fat_percent_status, get_visceral_fat_status, get_muscle_percent_status,
get_blood_pressure_status, get_waist_status and the lab getters) are
methods of health_app/models.py, which is not among the sources; only the
color and normal_range fields consumed by generate_comparison_table are
modelled, with severities from the classifier tables of the spec (4.1)
and normal ranges from the reference intervals of the spec. -/
structure ModelStatus where
  color : Option String
  normal_range : Option (ℚ × ℚ)
deriving DecidableEq, Repr

/-- Modelled from the spec: record.get_bmi_status() (models.py, missing
from the sources) - severity of the BMI table, reference interval
18.5-22.9. -/
def get_bmi_status (bmi : ℚ) : ModelStatus :=
  { color := bmiColor bmi, normal_range := some (18.5, 22.9) }

/-- Modelled from the spec: record.get_fat_percent_status() (models.py,
missing from the sources) - severity of the sex-banded fat table,
reference interval from get_fat_normal_range. -/
def get_fat_percent_status (gender : Gender) (fat : ℚ) : ModelStatus :=
  { color := (fatOverview gender fat).head?.map Item.color,
    normal_range := some (get_fat_normal_range gender) }

/-- Modelled from the spec: record.get_visceral_fat_status() (models.py,
missing from the sources) - severity of the visceral-fat table, reference
interval 1-9. -/
def get_visceral_fat_status (vf : ℚ) : ModelStatus :=
  { color := (vfOverview vf).head?.map Item.color, normal_range := some (1, 9) }

/-- Modelled from the spec: record.get_muscle_percent_status() (models.py,
missing from the sources) - severity of the sex/age-banded muscle table,
reference interval from get_muscle_normal_range. -/
def get_muscle_percent_status (gender : Gender) (age : ℕ) (muscle : ℚ) : ModelStatus :=
  { color := (muscleOverview gender age muscle).head?.map Item.color,
    normal_range := some (get_muscle_normal_range gender age) }

/-- Modelled from the spec: record.get_blood_pressure_status() (models.py,
missing from the sources) - the joint blood-pressure severity; the
systolic reference interval 90-120 stands in for the interval the model
reports. -/
def get_blood_pressure_status (systolic diastolic : ℤ) : ModelStatus :=
  { color := bpColor systolic diastolic, normal_range := some (90, 120) }

/-- Modelled from the spec: record.get_waist_status() (models.py, missing
from the sources) - severity of the waist rule; the threshold is derived
from height, so no fixed reference interval is modelled. -/
def get_waist_status (waist height : ℚ) : ModelStatus :=
  { color := (waistOverview waist height).head?.map Item.color, normal_range := none }

/-- Modelled from the spec: the lab status getters (get_cholesterol_status,
get_ldl_status, get_hdl_status, get_fbs_status, get_triglycerides_status
of models.py, missing from the sources) return a falsy value when the lab
value is absent, else a status whose color follows the lipid-panel tables
of the spec (4.1). -/
def labStatusColor (band : ℚ → String) : Option ℚ → Option String
  | none => none
  | some v => some (band v)

/-- Severity of the cholesterol table: below 200 success, else warning. -/
def cholBand (v : ℚ) : String := if v < 200 then "success" else "warning"

/-- Severity of the LDL table: below 130 success, else warning. -/
def ldlBand (v : ℚ) : String := if v < 130 then "success" else "warning"

/-- Severity of the sex-banded HDL table. -/
def hdlBand (gender : Gender) (v : ℚ) : String :=
  match gender with
  | .male => if v > 40 then "success" else "warning"
  | .female => if v > 50 then "success" else "warning"

/-- Severity of the FBS table. -/
def fbsBand (v : ℚ) : String :=
  if v < 100 then "success" else if 100 ≤ v ∧ v ≤ 125 then "warning" else "danger"

/-- Severity of the triglycerides table of the helper get_triglycerides_status. -/
def tgBand (v : ℚ) : String :=
  if v < 150 then "success"
  else if 150 ≤ v ∧ v < 200 then "warning"
  else if 200 ≤ v ∧ v < 500 then "warning"
  else "danger"

/-- One row of the comparison dict for the seven always-present metrics
(start_value, end_value, diff, text, color, normal_range). -/
structure Entry where
  start_value : ℚ
  end_value : ℚ
  diff : ℚ
  text : String
  color : Option String
  normal_range : Option (ℚ × ℚ)
deriving DecidableEq, Repr

/-- One row of the comparison dict for the five optional lab metrics; the
source builds these dicts without a normal_range key. -/
structure LabEntry where
  start_value : ℚ
  end_value : ℚ
  diff : ℚ
  text : String
  color : String
deriving DecidableEq, Repr

/-- Builds one always-present comparison row from the two endpoint values
and the status of the later record. -/
def coreCompare (startValue endValue : ℚ) (status : ModelStatus) : Entry :=
  { start_value := startValue, end_value := endValue, diff := endValue - startValue,
    text := get_comparison_text (endValue - startValue),
    color := status.color, normal_range := status.normal_range }

/-- Builds one optional lab comparison row: present exactly when both
endpoint fields are truthy (`if first_record.x and last_record.x:`), with
the fallback colour #6c757d when the status getter returns a falsy status. -/
def labCompare (firstValue lastValue : Option ℚ) (statusColor : Option String) : Option LabEntry :=
  if truthy firstValue ∧ truthy lastValue then
    some { start_value := firstValue.getD 0, end_value := lastValue.getD 0,
           diff := lastValue.getD 0 - firstValue.getD 0,
           text := get_comparison_text (lastValue.getD 0 - firstValue.getD 0),
           color := statusColor.getD "#6c757d" }
  else none

/-- The comparison dict of generate_comparison_table: seven always-present
rows in insertion order, then the five optional lab rows. -/
structure Comparison where
  bmi : Entry
  fat_percent : Entry
  visceral_fat : Entry
  muscle_percent : Entry
  blood_pressure_systolic : Entry
  blood_pressure_diastolic : Entry
  waist : Entry
  cholesterol : Option LabEntry
  ldl : Option LabEntry
  hdl : Option LabEntry
  fbs : Option LabEntry
  triglycerides : Option LabEntry
deriving DecidableEq, Repr

/-- generate_comparison_table(first_record, last_record, profile) of
views.py lines 571-733.  Blood-pressure readings are integers in the
source; their rows coerce to rationals here.  Both blood-pressure rows
take colour and range from the joint status of the later record. -/
def generate_comparison_table (first_record last_record : HealthRecord) (profile : Profile) : Comparison :=
  { bmi := coreCompare first_record.bmi last_record.bmi (get_bmi_status last_record.bmi),
    fat_percent := coreCompare first_record.fat_percent last_record.fat_percent
      (get_fat_percent_status profile.gender last_record.fat_percent),
    visceral_fat := coreCompare first_record.visceral_fat last_record.visceral_fat
      (get_visceral_fat_status last_record.visceral_fat),
    muscle_percent := coreCompare first_record.muscle_percent last_record.muscle_percent
      (get_muscle_percent_status profile.gender profile.age last_record.muscle_percent),
    blood_pressure_systolic := coreCompare (first_record.blood_pressure_systolic : ℚ)
      (last_record.blood_pressure_systolic : ℚ)
      (get_blood_pressure_status last_record.blood_pressure_systolic last_record.blood_pressure_diastolic),
    blood_pressure_diastolic := coreCompare (first_record.blood_pressure_diastolic : ℚ)
      (last_record.blood_pressure_diastolic : ℚ)
      (get_blood_pressure_status last_record.blood_pressure_systolic last_record.blood_pressure_diastolic),
    waist := coreCompare first_record.waist last_record.waist
      (get_waist_status last_record.waist last_record.height),
    cholesterol := labCompare first_record.cholesterol last_record.cholesterol
      (labStatusColor cholBand last_record.cholesterol),
    ldl := labCompare first_record.ldl last_record.ldl
      (labStatusColor ldlBand last_record.ldl),
    hdl := labCompare first_record.hdl last_record.hdl
      (labStatusColor (hdlBand profile.gender) last_record.hdl),
    fbs := labCompare first_record.fbs last_record.fbs
      (labStatusColor fbsBand last_record.fbs),
    triglycerides := labCompare first_record.triglycerides last_record.triglycerides
      (labStatusColor tgBand last_record.triglycerides) }

/-- Rendering of a normal-range pair inside the Thai summary strings; the
exact digits Python would print are irrelevant to every claim, the
rationals are rendered exactly. -/
def reprRange : Option (ℚ × ℚ) → String
  | none => "None"
  | some p => "(" ++ toString p.1 ++ ", " ++ toString p.2 ++ ")"

/-- The flat summary mapping of generate_summary_info: one Thai sentence
per metric key. -/
structure Summary where
  bmi : String
  waist : String
  blood_pressure_systolic : String
  blood_pressure_diastolic : String
  fat_percent : String
  visceral_fat : String
  muscle_percent : String
  cholesterol : String
  ldl : String
  hdl : String
  fbs : String
  triglycerides : String
deriving DecidableEq, Repr

/-- generate_summary_info(first_record, last_record, profile) of views.py
lines 746-766: rebuilds the comparison and flattens it to sentences; the
five optional keys collapse to the empty string when the comparison holds
no row for them. -/
def generate_summary_info (first_record last_record : HealthRecord) (profile : Profile) : Summary :=
  let comparison := generate_comparison_table first_record last_record profile
  { bmi := "BMI " ++ comparison.bmi.text ++ " ค่าปกติ " ++ reprRange comparison.bmi.normal_range,
    waist := "รอบเอว " ++ comparison.waist.text ++ " ค่าปกติ " ++ reprRange comparison.waist.normal_range,
    blood_pressure_systolic := "ความดันโลหิตตัวบน " ++ comparison.blood_pressure_systolic.text
      ++ " ค่าปกติ " ++ reprRange comparison.blood_pressure_systolic.normal_range,
    blood_pressure_diastolic := "ความดันโลหิตตัวล่าง " ++ comparison.blood_pressure_diastolic.text
      ++ " ค่าปกติ " ++ reprRange comparison.blood_pressure_diastolic.normal_range,
    fat_percent := "เปอร์เซ็นต์ไขมัน " ++ comparison.fat_percent.text
      ++ " ค่าปกติ " ++ reprRange comparison.fat_percent.normal_range,
    visceral_fat := "เปอร์เซ็นต์ไขมันในช่องท้อง " ++ comparison.visceral_fat.text
      ++ " ค่าปกติ " ++ reprRange comparison.visceral_fat.normal_range,
    muscle_percent := "เปอร์เซ็นต์มวลกล้ามเนื้อ " ++ comparison.muscle_percent.text
      ++ " ค่าปกติ " ++ reprRange comparison.muscle_percent.normal_range,
    cholesterol := (comparison.cholesterol.elim "" (fun e => "คอเลสเตอรอล " ++ e.text)),
    ldl := (comparison.ldl.elim "" (fun e => "LDL " ++ e.text)),
    hdl := (comparison.hdl.elim "" (fun e => "HDL " ++ e.text)),
    fbs := (comparison.fbs.elim "" (fun e => "น้ำตาลในเลือดขณะอดอาหาร " ++ e.text)),
    triglycerides := (comparison.triglycerides.elim "" (fun e => "ไตรกลีเซอไรด์ " ++ e.text)) }

/-- C1: counterexample - the pair systolic 130, diastolic 110 satisfies
diastolic ≥ 110, yet the earlier elevated branch (130 ≤ systolic ≤ 139)
wins and the joint classification is warning, not danger. -/
theorem c1_counterexample :
    ((180 : ℤ) ≤ 130 ∨ (110 : ℤ) ≤ 110) ∧
      bpColor 130 110 = some "warning" ∧ bpColor 130 110 ≠ some "danger" := by
  refine ⟨Or.inr le_rfl, ?_, ?_⟩ <;> decide

/-- C1 (amended): systolic < 120 and diastolic < 80 give severity success;
systolic ≥ 180 or diastolic ≥ 110 gives severity danger unless the other
component falls in an intermediate band evaluated earlier - systolic ≥ 180
with 85 ≤ diastolic ≤ 109, or diastolic ≥ 110 with 130 ≤ systolic ≤ 179 -
in which case the severity is warning. -/
theorem c1_bp_severity (s d : ℤ) :
    (s < 120 ∧ d < 80 → bpColor s d = some "success") ∧
    ((180 ≤ s ∨ 110 ≤ d) →
      ¬((180 ≤ s ∧ 85 ≤ d ∧ d ≤ 109) ∨ (110 ≤ d ∧ 130 ≤ s ∧ s ≤ 179)) →
      bpColor s d = some "danger") ∧
    ((180 ≤ s ∧ 85 ≤ d ∧ d ≤ 109) ∨ (110 ≤ d ∧ 130 ≤ s ∧ s ≤ 179) →
      bpColor s d = some "warning") := by
  unfold bpColor bpOverview
  refine ⟨fun h => ?_, fun h h2 => ?_, fun h => ?_⟩ <;>
    split_ifs <;> first | rfl | (exfalso; omega)

/-- C1 witness: concrete instances of the three amended branches. -/
theorem c1_bp_severity_witness :
    bpColor 110 70 = some "success" ∧ bpColor 190 115 = some "danger" ∧
      bpColor 190 95 = some "warning" :=
  ⟨(c1_bp_severity 110 70).1 (by decide),
   (c1_bp_severity 190 115).2.1 (by decide) (by decide),
   (c1_bp_severity 190 95).2.2 (by decide)⟩

/-- C2: counterexample - BMI 22.95 is not above 30, yet it falls through
every band of the chain (22.9 < 22.95 < 23) into the catch-all else and is
classified danger. -/
theorem c2_counterexample :
    ¬((30 : ℚ) < 2295 / 100) ∧ bmiColor (2295 / 100) = some "danger" := by
  constructor
  · norm_num
  · unfold bmiColor bmiOverview
    rw [if_neg (by norm_num), if_neg (by norm_num), if_neg (by norm_num),
      if_neg (by norm_num)]
    decide

/-- C2 (amended): the BMI classification is success exactly on
18.5 ≤ v ≤ 22.9, and danger exactly when v > 30 or v lies in one of the
uncovered gaps (22.9, 23) or (24.9, 25) that fall through to the
catch-all else. -/
theorem c2_bmi_severity (v : ℚ) :
    (bmiColor v = some "success" ↔ 18.5 ≤ v ∧ v ≤ 22.9) ∧
    (bmiColor v = some "danger" ↔
      30 < v ∨ (22.9 < v ∧ v < 23) ∨ (24.9 < v ∧ v < 25)) := by
  unfold bmiColor bmiOverview
  split_ifs with h1 h2 h3 h4
  · exact ⟨iff_of_false (by decide) (by rintro ⟨a, b⟩; linarith),
      iff_of_false (by decide) (by rintro (hx | ⟨a, b⟩ | ⟨a, b⟩) <;> linarith)⟩
  · exact ⟨iff_of_true (by decide) h2,
      iff_of_false (by decide)
        (by rintro (hx | ⟨a, b⟩ | ⟨a, b⟩) <;> linarith [h2.1, h2.2])⟩
  · exact ⟨iff_of_false (by decide) (by rintro ⟨a, b⟩; linarith [h3.1, h3.2]),
      iff_of_false (by decide)
        (by rintro (hx | ⟨a, b⟩ | ⟨a, b⟩) <;> linarith [h3.1, h3.2])⟩
  · exact ⟨iff_of_false (by decide) (by rintro ⟨a, b⟩; linarith [h4.1, h4.2]),
      iff_of_false (by decide)
        (by rintro (hx | ⟨a, b⟩ | ⟨a, b⟩) <;> linarith [h4.1, h4.2])⟩
  · refine ⟨iff_of_false (by decide) h2, iff_of_true (by decide) ?_⟩
    push_neg at h1 h2 h3 h4
    have hv : (22.9 : ℚ) < v := h2 h1
    by_cases hc : (23 : ℚ) ≤ v
    · by_cases hc2 : (25 : ℚ) ≤ v
      · exact Or.inl (h4 hc2)
      · exact Or.inr (Or.inr ⟨h3 hc, lt_of_not_le hc2⟩)
    · exact Or.inr (Or.inl ⟨hv, lt_of_not_le hc⟩)

/-- C2 witness: the amended characterization evaluated at 20 and at 31. -/
theorem c2_bmi_severity_witness :
    bmiColor 20 = some "success" ∧ bmiColor 31 = some "danger" :=
  ⟨(c2_bmi_severity 20).1.mpr (by norm_num),
   (c2_bmi_severity 31).2.mpr (Or.inl (by norm_num))⟩

/-- C8: the waist classification with threshold height/2: within absolute
distance 1 of the threshold (in particular at the threshold itself) it is
the normal/success item; otherwise above the threshold it is the
exceeds/danger item and below it the very-good/success item. -/
theorem c8_waist (waist height : ℚ) :
    (|waist - height / 2| < 1 →
      waistOverview waist height =
        [create_item "เส้นรอบเอวของคุณอยู่ในเกณฑ์ปกติ" "success" "normal"]) ∧
    (waist = height / 2 →
      waistOverview waist height =
        [create_item "เส้นรอบเอวของคุณอยู่ในเกณฑ์ปกติ" "success" "normal"]) ∧
    (¬(|waist - height / 2| < 1) → waist > height / 2 →
      waistOverview waist height =
        [create_item "เส้นรอบเอวของคุณเกินเกณฑ์" "danger" "normal"]) ∧
    (¬(|waist - height / 2| < 1) → waist < height / 2 →
      waistOverview waist height =
        [create_item "รอบเอวของคุณอยู่ในเกณฑ์ดีมาก" "success" "normal"]) := by
  unfold waistOverview
  refine ⟨fun h => ?_, fun h => ?_, fun h h2 => ?_, fun h h2 => ?_⟩
  · simp only [h, if_true]
  · have : |waist - height / 2| < 1 := by
      rw [h]; simp
    simp only [this, if_true]
  · simp only [h, if_false, h2, if_true]
  · have h3 : ¬ waist > height / 2 := by linarith
    simp only [h, if_false, h3, if_true]

/-- C8 witness: waist 85 at height 170 is exactly the threshold and is
classified normal/success; waist 95 exceeds and waist 75 is very good. -/
theorem c8_waist_witness :
    waistOverview 85 170 =
      [create_item "เส้นรอบเอวของคุณอยู่ในเกณฑ์ปกติ" "success" "normal"] ∧
    waistOverview 95 170 =
      [create_item "เส้นรอบเอวของคุณเกินเกณฑ์" "danger" "normal"] ∧
    waistOverview 75 170 =
      [create_item "รอบเอวของคุณอยู่ในเกณฑ์ดีมาก" "success" "normal"] :=
  ⟨(c8_waist 85 170).2.1 (by norm_num),
   (c8_waist 95 170).2.2.1 (by rw [abs_of_pos] <;> norm_num) (by norm_num),
   (c8_waist 75 170).2.2.2 (by rw [abs_of_neg] <;> norm_num) (by norm_num)⟩

/-- C5: counterexample - triglycerides 199.5 is below 500, yet it falls
between the closed bands 150-199 and 200-499 into the catch-all else and
is classified danger. -/
theorem c5_counterexample :
    ¬((500 : ℚ) ≤ 1995 / 10) ∧ tgColor (some (1995 / 10)) = some "danger" := by
  constructor
  · norm_num
  · unfold tgColor
    simp only [tgOverview]
    rw [if_neg (by norm_num), if_neg (by norm_num), if_neg (by norm_num),
      if_neg (by norm_num)]
    decide

/-- C5 (amended): for a truthy (nonzero) triglycerides value, below 150 is
success, the closed bands 150-199 and 200-499 are warning, and the danger
classification is produced exactly when v > 499 or v falls in the
uncovered gap (199, 200); a stored zero skips the block entirely. -/
theorem c5_tg_severity (v : ℚ) (hv : v ≠ 0) :
    (v < 150 → tgColor (some v) = some "success") ∧
    (150 ≤ v ∧ v ≤ 199 → tgColor (some v) = some "warning") ∧
    (200 ≤ v ∧ v ≤ 499 → tgColor (some v) = some "warning") ∧
    (tgColor (some v) = some "danger" ↔ (199 < v ∧ v < 200) ∨ 499 < v) := by
  unfold tgColor
  simp only [tgOverview]
  rw [if_neg hv]
  split_ifs with h1 h2 h3
  · exact ⟨fun _ => rfl, fun hx => absurd h1 (by push_neg; exact hx.1),
      fun hx => absurd h1 (by push_neg; linarith [hx.1]),
      iff_of_false (by decide) (by rintro (⟨a, b⟩ | a) <;> linarith)⟩
  · exact ⟨fun hx => absurd hx (by push_neg; exact h2.1), fun _ => rfl,
      fun hx => absurd hx.1 (by push_neg; linarith [h2.2]),
      iff_of_false (by decide) (by rintro (⟨a, b⟩ | a) <;> linarith [h2.2])⟩
  · exact ⟨fun hx => absurd hx (by push_neg; linarith [h3.1]),
      fun hx => absurd hx.2 (by push_neg; linarith [h3.1]), fun _ => rfl,
      iff_of_false (by decide) (by rintro (⟨a, b⟩ | a) <;> linarith [h3.1, h3.2])⟩
  · push_neg at h1 h2 h3
    have h199 : 199 < v := h2 h1
    refine ⟨fun hx => absurd hx (by push_neg; exact h1),
      fun hx => absurd hx.2 (by push_neg; exact h199),
      fun hx => absurd (h3 hx.1) (by push_neg; exact hx.2),
      iff_of_true (by decide) ?_⟩
    by_cases hc : (200 : ℚ) ≤ v
    · exact Or.inr (h3 hc)
    · exact Or.inl ⟨h199, lt_of_not_le hc⟩

/-- C5 witness: a normal and a very-high concrete triglycerides value. -/
theorem c5_tg_severity_witness :
    tgColor (some 100) = some "success" ∧ tgColor (some 550) = some "danger" :=
  ⟨(c5_tg_severity 100 (by norm_num)).1 (by norm_num),
   (c5_tg_severity 550 (by norm_num)).2.2.2.mpr (Or.inr (by norm_num))⟩

/-- Closed-form severity tier of the helper get_triglycerides_status. -/
lemma helperTgTier_eq (v : ℚ) :
    helperTgTier (some v) =
      if v < 150 then some "success"
      else if 150 ≤ v ∧ v < 200 then some "warning"
      else if 200 ≤ v ∧ v < 500 then some "warning"
      else some "danger" := by
  unfold helperTgTier
  simp only [get_triglycerides_status]
  split_ifs <;> rfl

/-- Closed-form severity of the overview triglycerides block on a truthy
value. -/
lemma tgColor_eq (v : ℚ) (hv : v ≠ 0) :
    tgColor (some v) =
      if v < 150 then some "success"
      else if 150 ≤ v ∧ v ≤ 199 then some "warning"
      else if 200 ≤ v ∧ v ≤ 499 then some "warning"
      else some "danger" := by
  unfold tgColor
  simp only [tgOverview]
  rw [if_neg hv]
  split_ifs <;> rfl

/-- C9: counterexample - at triglycerides 199.5 the overview branch falls
through its closed bands to danger while the half-open helper band
150 ≤ v < 200 yields the warning tier. -/
theorem c9_counterexample :
    tgColor (some (1995 / 10)) = some "danger" ∧
    helperTgTier (some (1995 / 10)) = some "warning" ∧
    (some "danger" : Option String) ≠ some "warning" := by
  refine ⟨?_, ?_, by decide⟩
  · unfold tgColor
    simp only [tgOverview]
    rw [if_neg (by norm_num), if_neg (by norm_num), if_neg (by norm_num),
      if_neg (by norm_num)]
    decide
  · unfold helperTgTier
    simp only [get_triglycerides_status]
    rw [if_neg (by norm_num), if_pos (by norm_num)]
    decide

/-- C9 (amended): on every truthy value outside the gaps (199, 200) and
(499, 500) the two triglycerides classifiers assign the same severity
tier; inside the gaps the overview assigns danger while the helper assigns
warning; and at a stored zero the overview block is skipped entirely while
the helper still assigns success. -/
theorem c9_tg_tier (v : ℚ) :
    (v ≠ 0 → ¬((199 < v ∧ v < 200) ∨ (499 < v ∧ v < 500)) →
      tgColor (some v) = helperTgTier (some v)) ∧
    (v ≠ 0 → (199 < v ∧ v < 200) ∨ (499 < v ∧ v < 500) →
      tgColor (some v) = some "danger" ∧ helperTgTier (some v) = some "warning") ∧
    (v = 0 → tgColor (some v) = none ∧ helperTgTier (some v) = some "success") := by
  refine ⟨fun hv hgap => ?_, fun hv hgap => ?_, fun h0 => ?_⟩
  · rw [tgColor_eq v hv, helperTgTier_eq]
    by_cases h1 : v < 150
    · rw [if_pos h1, if_pos h1]
    · by_cases h2 : 150 ≤ v ∧ v ≤ 199
      · rw [if_neg h1, if_neg h1, if_pos h2,
          if_pos (show 150 ≤ v ∧ v < 200 from ⟨h2.1, by linarith [h2.2]⟩)]
      · have h150 : 150 ≤ v := le_of_not_lt h1
        have h199 : 199 < v := by push_neg at h2; exact h2 h150
        have h200 : 200 ≤ v := by
          by_contra hc
          exact hgap (Or.inl ⟨h199, lt_of_not_le hc⟩)
        have hn2 : ¬(150 ≤ v ∧ v < 200) := by rintro ⟨a, b⟩; linarith
        by_cases h3 : v ≤ 499
        · rw [if_neg h1, if_neg h1, if_neg h2, if_neg hn2,
            if_pos (show 200 ≤ v ∧ v ≤ 499 from ⟨h200, h3⟩),
            if_pos (show 200 ≤ v ∧ v < 500 from ⟨h200, by linarith⟩)]
        · have h500 : 500 ≤ v := by
            by_contra hc
            exact hgap (Or.inr ⟨by linarith [lt_of_not_le h3], lt_of_not_le hc⟩)
          rw [if_neg h1, if_neg h1, if_neg h2, if_neg hn2,
            if_neg (show ¬(200 ≤ v ∧ v ≤ 499) by rintro ⟨a, b⟩; linarith [lt_of_not_le h3]),
            if_neg (show ¬(200 ≤ v ∧ v < 500) by rintro ⟨a, b⟩; linarith)]
  · rw [tgColor_eq v hv, helperTgTier_eq]
    rcases hgap with ⟨a, b⟩ | ⟨a, b⟩
    · rw [if_neg (show ¬(v < 150) by linarith),
        if_neg (show ¬(v < 150) by linarith),
        if_neg (show ¬(150 ≤ v ∧ v ≤ 199) by rintro ⟨c, d⟩; linarith),
        if_neg (show ¬(200 ≤ v ∧ v ≤ 499) by rintro ⟨c, d⟩; linarith),
        if_pos (show 150 ≤ v ∧ v < 200 from ⟨by linarith, b⟩)]
      exact ⟨rfl, rfl⟩
    · rw [if_neg (show ¬(v < 150) by linarith),
        if_neg (show ¬(v < 150) by linarith),
        if_neg (show ¬(150 ≤ v ∧ v ≤ 199) by rintro ⟨c, d⟩; linarith),
        if_neg (show ¬(200 ≤ v ∧ v ≤ 499) by rintro ⟨c, d⟩; linarith),
        if_neg (show ¬(150 ≤ v ∧ v < 200) by rintro ⟨c, d⟩; linarith),
        if_pos (show 200 ≤ v ∧ v < 500 from ⟨by linarith, b⟩)]
      exact ⟨rfl, rfl⟩
  · subst h0
    refine ⟨by decide, ?_⟩
    rw [helperTgTier_eq, if_pos (show (0 : ℚ) < 150 by norm_num)]

/-- C9 witness: the two classifiers agree at 100 and diverge at 199.5. -/
theorem c9_tg_tier_witness :
    tgColor (some 100) = helperTgTier (some 100) ∧
      tgColor (some (1995 / 10)) = some "danger" :=
  ⟨(c9_tg_tier 100).1 (by norm_num) (by rintro (⟨a, b⟩ | ⟨a, b⟩) <;> linarith),
   ((c9_tg_tier (1995 / 10)).2.1 (by norm_num)
     (Or.inl (by norm_num))).1⟩

/-- C10: for every age outside 18-59 - in particular any age below 18 or
above 80 - get_muscle_normal_range falls into its final else and returns
the range of the 60-80 band, (23.9, 29.9) for female and (32.9, 38.9) for
male, even though the muscle-percent chain of the overview classifies nothing
for ages below 18 or above 80. -/
theorem c10_muscle_range (age : ℕ) (h : ¬(18 ≤ age ∧ age ≤ 59)) :
    get_muscle_normal_range .female age = (23.9, 29.9) ∧
    get_muscle_normal_range .male age = (32.9, 38.9) ∧
    (∀ (g : Gender) (m : ℚ), age < 18 ∨ 80 < age → muscleClassify g age m = none) := by
  refine ⟨?_, ?_, fun g m hage => ?_⟩
  · simp only [get_muscle_normal_range]
    rw [if_neg (show ¬(18 ≤ age ∧ age ≤ 39) by omega),
      if_neg (show ¬(40 ≤ age ∧ age ≤ 59) by omega)]
  · simp only [get_muscle_normal_range]
    rw [if_neg (show ¬(18 ≤ age ∧ age ≤ 39) by omega),
      if_neg (show ¬(40 ≤ age ∧ age ≤ 59) by omega)]
  · cases g <;> simp only [muscleClassify] <;>
      rw [if_neg (show ¬(18 ≤ age ∧ age ≤ 39) by omega),
        if_neg (show ¬(40 ≤ age ∧ age ≤ 59) by omega),
        if_neg (show ¬(60 ≤ age ∧ age ≤ 80) by omega)]

/-- C10 witness: age 10 and age 85 instances. -/
theorem c10_muscle_range_witness :
    get_muscle_normal_range .female 10 = (23.9, 29.9) ∧
    get_muscle_normal_range .male 85 = (32.9, 38.9) ∧
    muscleClassify .male 85 40 = none :=
  ⟨(c10_muscle_range 10 (by omega)).1,
   (c10_muscle_range 85 (by omega)).2.1,
   (c10_muscle_range 85 (by omega)).2.2 .male 40 (by omega)⟩

/-- Numeric bounds a classified value satisfies in each tier of a band
whose cut points satisfy c1 ≤ c3 ≤ c5. -/
lemma bandClassify_facts (c1 c2 c3 c4 c5 m : ℚ) (h13 : c1 ≤ c3) (h35 : c3 ≤ c5)
    (t : MTier) (e : bandClassify c1 c2 c3 c4 c5 m = some t) :
    (t = .low → m < c1) ∧
    (t = .normal → c1 ≤ m ∧ m ≤ c2) ∧
    (t = .high → c3 ≤ m ∧ c2 < m ∧ m ≤ c4) ∧
    (t = .veryHigh → c5 ≤ m ∧ c2 < m ∧ c4 < m) := by
  unfold bandClassify at e
  split_ifs at e with k1 k2 k3 k4
  · injection e with e; subst e
    refine ⟨fun _ => k1, ?_, ?_, ?_⟩ <;> (intro h; exact absurd h (by decide))
  · injection e with e; subst e
    refine ⟨?_, fun _ => k2, ?_, ?_⟩ <;> (intro h; exact absurd h (by decide))
  · injection e with e; subst e
    push_neg at k2
    have hc1 : c1 ≤ m := le_trans h13 k3.1
    refine ⟨?_, ?_, fun _ => ⟨k3.1, k2 hc1, k3.2⟩, ?_⟩ <;>
      (intro h; exact absurd h (by decide))
  · injection e with e; subst e
    push_neg at k2 k3
    have hc3 : c3 ≤ m := le_trans h35 k4
    have hc1 : c1 ≤ m := le_trans h13 hc3
    refine ⟨?_, ?_, ?_, fun _ => ⟨k4, k2 hc1, k3 hc3⟩⟩ <;>
      (intro h; exact absurd h (by decide))

/-- Monotonicity of one muscle band: when the low cut is at most the high
cut and the high cut at most the very-high cut, a larger classified value
never lands in a lower tier. -/
lemma bandClassify_mono (c1 c2 c3 c4 c5 : ℚ) (h13 : c1 ≤ c3) (h35 : c3 ≤ c5)
    (m1 m2 : ℚ) (hm : m1 ≤ m2) (t1 t2 : MTier)
    (e1 : bandClassify c1 c2 c3 c4 c5 m1 = some t1)
    (e2 : bandClassify c1 c2 c3 c4 c5 m2 = some t2) :
    t1.rank ≤ t2.rank := by
  have f1 := bandClassify_facts c1 c2 c3 c4 c5 m1 h13 h35 t1 e1
  have f2 := bandClassify_facts c1 c2 c3 c4 c5 m2 h13 h35 t2 e2
  cases t1 <;> cases t2 <;>
    first
      | decide
      | (exfalso
         first
           | linarith [(f1.2.1 rfl).1, f2.1 rfl]
           | linarith [(f1.2.2.1 rfl).1, f2.1 rfl]
           | linarith [(f1.2.2.1 rfl).2.1, (f2.2.1 rfl).2]
           | linarith [(f1.2.2.2 rfl).1, f2.1 rfl]
           | linarith [(f1.2.2.2 rfl).2.1, (f2.2.1 rfl).2]
           | linarith [(f1.2.2.2 rfl).2.2, (f2.2.2.1 rfl).2.2])

/-- C6: for every one of the six sex/age bands, the muscle-percent
classification is monotonic non-decreasing in tier: if two values both
receive a classification under the same profile and the first is at most
the second, the tier of the first value is at most that of the second. -/
theorem c6_muscle_monotone (g : Gender) (age : ℕ) (m1 m2 : ℚ) (hm : m1 ≤ m2)
    (t1 t2 : MTier) (h1 : muscleClassify g age m1 = some t1)
    (h2 : muscleClassify g age m2 = some t2) :
    t1.rank ≤ t2.rank := by
  unfold muscleClassify at h1 h2
  cases g <;> split_ifs at h1 h2 <;>
    exact bandClassify_mono _ _ _ _ _ (by norm_num) (by norm_num)
      _ _ hm _ _ h1 h2

/-- C6 witness: under female age 30, value 20 is the low tier and value 25
the normal tier, and the ranks are ordered. -/
theorem c6_muscle_monotone_witness :
    MTier.rank .low ≤ MTier.rank .normal :=
  c6_muscle_monotone .female 30 20 25 (by norm_num) .low .normal
    (by simp only [muscleClassify, bandClassify]
        rw [if_pos (show 18 ≤ 30 ∧ 30 ≤ 39 by omega),
          if_pos (show (20 : ℚ) < 24.3 by norm_num)])
    (by simp only [muscleClassify, bandClassify]
        rw [if_pos (show 18 ≤ 30 ∧ 30 ≤ 39 by omega),
          if_neg (show ¬((25 : ℚ) < 24.3) by norm_num),
          if_pos (show (24.3 : ℚ) ≤ 25 ∧ (25 : ℚ) ≤ 30.3 by norm_num)])

/-- C4: counterexample - the blood-pressure pair systolic 125, diastolic
70, a non-negative pair in the declared domain, matches no band of the
chain: no classification is produced. -/
theorem c4_counterexample :
    ((0 : ℤ) ≤ 125 ∧ (0 : ℤ) ≤ 70) ∧ bpOverview 125 70 = [] := by
  exact ⟨⟨by norm_num, by norm_num⟩, by decide⟩

/-- C4 (amended): matching is deterministic (the chains take the first
matching branch) and the BMI chain always classifies, as does the
triglycerides chain on truthy values; but the rule tables are not total
on the declared domains: the blood-pressure pair (125, 70), female
fat-percent 34.7, visceral fat 9.5 and female muscle-percent 30.35 at age
30 each match no band and produce no classification. -/
theorem c4_totality :
    (∀ v : ℚ, 0 ≤ v → bmiOverview v ≠ []) ∧
    (∀ v : ℚ, 0 ≤ v → v ≠ 0 → tgOverview (some v) ≠ []) ∧
    bpOverview 125 70 = [] ∧
    fatOverview .female (347 / 10) = [] ∧
    vfOverview (19 / 2) = [] ∧
    muscleOverview .female 30 (3035 / 100) = [] := by
  refine ⟨fun v hv => ?_, fun v hv hv0 => ?_, by decide, ?_, ?_, ?_⟩
  · unfold bmiOverview
    split_ifs <;> simp
  · simp only [tgOverview]
    rw [if_neg hv0]
    split_ifs <;> simp
  · simp only [fatOverview]
    rw [if_neg (show ¬((5 : ℚ) ≤ 347 / 10 ∧ (347 / 10 : ℚ) ≤ 19.9) by norm_num),
      if_neg (show ¬((20 : ℚ) ≤ 347 / 10 ∧ (347 / 10 : ℚ) ≤ 29.9) by norm_num),
      if_neg (show ¬((30 : ℚ) ≤ 347 / 10 ∧ (347 / 10 : ℚ) ≤ 34.5) by norm_num),
      if_neg (show ¬((35 : ℚ) ≤ 347 / 10 ∧ (347 / 10 : ℚ) ≤ 50) by norm_num)]
  · unfold vfOverview
    rw [if_neg (show ¬((1 : ℚ) ≤ 19 / 2 ∧ (19 / 2 : ℚ) ≤ 9) by norm_num),
      if_neg (show ¬((10 : ℚ) ≤ 19 / 2 ∧ (19 / 2 : ℚ) ≤ 14) by norm_num),
      if_neg (show ¬((15 : ℚ) ≤ 19 / 2 ∧ (19 / 2 : ℚ) ≤ 30) by norm_num)]
  · have hmc : muscleClassify .female 30 (3035 / 100) = none := by
      simp only [muscleClassify, bandClassify]
      rw [if_pos (show 18 ≤ 30 ∧ 30 ≤ 39 by omega),
        if_neg (show ¬((3035 / 100 : ℚ) < 24.3) by norm_num),
        if_neg (show ¬((24.3 : ℚ) ≤ 3035 / 100 ∧ (3035 / 100 : ℚ) ≤ 30.3) by norm_num),
        if_neg (show ¬((30.4 : ℚ) ≤ 3035 / 100 ∧ (3035 / 100 : ℚ) ≤ 35.3) by norm_num),
        if_neg (show ¬((35.4 : ℚ) ≤ 3035 / 100) by norm_num)]
    unfold muscleOverview
    rw [hmc]
    rfl

/-- C4 witness: the BMI and triglycerides chains produce a classification
at 20 and 100. -/
theorem c4_totality_witness :
    bmiOverview 20 ≠ [] ∧ tgOverview (some 100) ≠ [] :=
  ⟨c4_totality.1 20 (by norm_num), c4_totality.2.1 100 (by norm_num) (by norm_num)⟩

/-- Concrete record pair used to exercise the comparison builder: both
store the measured-but-zero cholesterol value Decimal 0, LDL absent, the
other labs present and nonzero. -/
def recA : HealthRecord :=
  { blood_pressure_systolic := 125, blood_pressure_diastolic := 82,
    height := 170, waist := 80, bmi := 24, fat_percent := 22,
    visceral_fat := 12, muscle_percent := 35,
    cholesterol := some 0, ldl := none, hdl := some 45, fbs := none,
    triglycerides := some 160 }

/-- Second record of the concrete comparison pair. -/
def recB : HealthRecord :=
  { blood_pressure_systolic := 118, blood_pressure_diastolic := 78,
    height := 170, waist := 80, bmi := 21, fat_percent := 18,
    visceral_fat := 12, muscle_percent := 35,
    cholesterol := some 0, ldl := none, hdl := some 50, fbs := none,
    triglycerides := some 150 }

/-- Profile of the concrete comparison pair. -/
def profM : Profile := { gender := .male, age := 30 }

/-- Presence of an optional lab row is exactly joint truthiness of the two
endpoint values. -/
lemma labCompare_ne_none (x y : Option ℚ) (c : Option String) :
    labCompare x y c ≠ none ↔ truthy x ∧ truthy y := by
  unfold labCompare
  split_ifs with h
  · exact iff_of_true (by simp) h
  · exact iff_of_false (by simp) h

/-- C3: counterexample - both records hold the non-null cholesterol value
Decimal 0, which Python truthiness treats as absent: the comparison map
has no cholesterol entry (and its summary entry is the empty string). -/
theorem c3_counterexample :
    recA.cholesterol ≠ none ∧ recB.cholesterol ≠ none ∧
    (generate_comparison_table recA recB profM).cholesterol = none ∧
    (generate_summary_info recA recB profM).cholesterol = "" := by
  refine ⟨by decide, by decide, by decide, by decide⟩

/-- C3 (amended): an optional lab metric has an entry in the comparison
map if and only if both records hold a truthy value for it (present and
nonzero - Python truthiness treats a stored zero like an absent value,
so non-null is not sufficient); when it has no entry, its summary entry
is the empty string. -/
theorem c3_lab_presence (a b : HealthRecord) (p : Profile) :
    ((generate_comparison_table a b p).cholesterol ≠ none ↔
      truthy a.cholesterol ∧ truthy b.cholesterol) ∧
    ((generate_comparison_table a b p).ldl ≠ none ↔
      truthy a.ldl ∧ truthy b.ldl) ∧
    ((generate_comparison_table a b p).hdl ≠ none ↔
      truthy a.hdl ∧ truthy b.hdl) ∧
    ((generate_comparison_table a b p).fbs ≠ none ↔
      truthy a.fbs ∧ truthy b.fbs) ∧
    ((generate_comparison_table a b p).triglycerides ≠ none ↔
      truthy a.triglycerides ∧ truthy b.triglycerides) ∧
    ((generate_comparison_table a b p).cholesterol = none →
      (generate_summary_info a b p).cholesterol = "") ∧
    ((generate_comparison_table a b p).ldl = none →
      (generate_summary_info a b p).ldl = "") ∧
    ((generate_comparison_table a b p).hdl = none →
      (generate_summary_info a b p).hdl = "") ∧
    ((generate_comparison_table a b p).fbs = none →
      (generate_summary_info a b p).fbs = "") ∧
    ((generate_comparison_table a b p).triglycerides = none →
      (generate_summary_info a b p).triglycerides = "") := by
  refine ⟨labCompare_ne_none _ _ _, labCompare_ne_none _ _ _,
    labCompare_ne_none _ _ _, labCompare_ne_none _ _ _,
    labCompare_ne_none _ _ _, fun h => ?_, fun h => ?_, fun h => ?_,
    fun h => ?_, fun h => ?_⟩
  · show ((generate_comparison_table a b p).cholesterol).elim ""
      (fun e => "คอเลสเตอรอล " ++ e.text) = ""
    rw [h]
    rfl
  · show ((generate_comparison_table a b p).ldl).elim ""
      (fun e => "LDL " ++ e.text) = ""
    rw [h]
    rfl
  · show ((generate_comparison_table a b p).hdl).elim ""
      (fun e => "HDL " ++ e.text) = ""
    rw [h]
    rfl
  · show ((generate_comparison_table a b p).fbs).elim ""
      (fun e => "น้ำตาลในเลือดขณะอดอาหาร " ++ e.text) = ""
    rw [h]
    rfl
  · show ((generate_comparison_table a b p).triglycerides).elim ""
      (fun e => "ไตรกลีเซอไรด์ " ++ e.text) = ""
    rw [h]
    rfl

/-- C3 witness: the concrete pair has a triglycerides entry (both truthy)
and no LDL entry, whose summary entry is the empty string. -/
theorem c3_lab_presence_witness :
    ((generate_comparison_table recA recB profM).triglycerides ≠ none) ∧
    (generate_summary_info recA recB profM).ldl = "" :=
  ⟨(c3_lab_presence recA recB profM).2.2.2.2.1.mpr (by decide),
   (c3_lab_presence recA recB profM).2.2.2.2.2.2.1 (by decide)⟩

/-- The optional lab rows of the two comparison directions carry opposite
deltas whenever both are present. -/
lemma labCompare_diff_neg (x y : Option ℚ) (c d : Option String)
    (e1 e2 : LabEntry) (h1 : labCompare x y c = some e1)
    (h2 : labCompare y x d = some e2) : e1.diff = -e2.diff := by
  unfold labCompare at h1 h2
  split_ifs at h1 h2 with hxy hyx
  injection h1 with h1
  injection h2 with h2
  subst h1
  subst h2
  show y.getD 0 - x.getD 0 = -(x.getD 0 - y.getD 0)
  ring

/-- C7: for every pair of records and every profile, each metric present
in both comparison maps has a delta in compare(a, b) that is the exact
negation of its delta in compare(b, a): unconditionally for the seven
always-present rows, and for the five optional lab rows whenever both
directions hold an entry. -/
theorem c7_delta_negation (a b : HealthRecord) (p : Profile) :
    ((generate_comparison_table a b p).bmi.diff =
      -((generate_comparison_table b a p).bmi.diff)) ∧
    ((generate_comparison_table a b p).fat_percent.diff =
      -((generate_comparison_table b a p).fat_percent.diff)) ∧
    ((generate_comparison_table a b p).visceral_fat.diff =
      -((generate_comparison_table b a p).visceral_fat.diff)) ∧
    ((generate_comparison_table a b p).muscle_percent.diff =
      -((generate_comparison_table b a p).muscle_percent.diff)) ∧
    ((generate_comparison_table a b p).blood_pressure_systolic.diff =
      -((generate_comparison_table b a p).blood_pressure_systolic.diff)) ∧
    ((generate_comparison_table a b p).blood_pressure_diastolic.diff =
      -((generate_comparison_table b a p).blood_pressure_diastolic.diff)) ∧
    ((generate_comparison_table a b p).waist.diff =
      -((generate_comparison_table b a p).waist.diff)) ∧
    (∀ e1 e2, (generate_comparison_table a b p).cholesterol = some e1 →
      (generate_comparison_table b a p).cholesterol = some e2 →
      e1.diff = -e2.diff) ∧
    (∀ e1 e2, (generate_comparison_table a b p).ldl = some e1 →
      (generate_comparison_table b a p).ldl = some e2 →
      e1.diff = -e2.diff) ∧
    (∀ e1 e2, (generate_comparison_table a b p).hdl = some e1 →
      (generate_comparison_table b a p).hdl = some e2 →
      e1.diff = -e2.diff) ∧
    (∀ e1 e2, (generate_comparison_table a b p).fbs = some e1 →
      (generate_comparison_table b a p).fbs = some e2 →
      e1.diff = -e2.diff) ∧
    (∀ e1 e2, (generate_comparison_table a b p).triglycerides = some e1 →
      (generate_comparison_table b a p).triglycerides = some e2 →
      e1.diff = -e2.diff) := by
  refine ⟨?_, ?_, ?_, ?_, ?_, ?_, ?_,
    fun e1 e2 h1 h2 => labCompare_diff_neg _ _ _ _ e1 e2 h1 h2,
    fun e1 e2 h1 h2 => labCompare_diff_neg _ _ _ _ e1 e2 h1 h2,
    fun e1 e2 h1 h2 => labCompare_diff_neg _ _ _ _ e1 e2 h1 h2,
    fun e1 e2 h1 h2 => labCompare_diff_neg _ _ _ _ e1 e2 h1 h2,
    fun e1 e2 h1 h2 => labCompare_diff_neg _ _ _ _ e1 e2 h1 h2⟩
  · show b.bmi - a.bmi = -(a.bmi - b.bmi)
    ring
  · show b.fat_percent - a.fat_percent = -(a.fat_percent - b.fat_percent)
    ring
  · show b.visceral_fat - a.visceral_fat = -(a.visceral_fat - b.visceral_fat)
    ring
  · show b.muscle_percent - a.muscle_percent = -(a.muscle_percent - b.muscle_percent)
    ring
  · show (b.blood_pressure_systolic : ℚ) - (a.blood_pressure_systolic : ℚ) =
      -((a.blood_pressure_systolic : ℚ) - (b.blood_pressure_systolic : ℚ))
    ring
  · show (b.blood_pressure_diastolic : ℚ) - (a.blood_pressure_diastolic : ℚ) =
      -((a.blood_pressure_diastolic : ℚ) - (b.blood_pressure_diastolic : ℚ))
    ring
  · show b.waist - a.waist = -(a.waist - b.waist)
    ring

/-- C7 witness: on the concrete record pair, the two comparison
directions carry opposite BMI deltas, and the triglycerides rows of the
two directions - both present since both endpoint values are truthy -
carry opposite deltas (150 - 160 against 160 - 150). -/
theorem c7_delta_negation_witness :
    (generate_comparison_table recA recB profM).bmi.diff =
      -((generate_comparison_table recB recA profM).bmi.diff) ∧
    (150 - 160 : ℚ) = -((160 - 150 : ℚ)) := by
  have he1 : (generate_comparison_table recA recB profM).triglycerides =
      some { start_value := 160, end_value := 150, diff := 150 - 160,
             text := get_comparison_text (150 - 160),
             color := (labStatusColor tgBand (some 150)).getD "#6c757d" } := by
    show labCompare (some 160) (some 150) (labStatusColor tgBand (some 150)) = _
    unfold labCompare
    rw [if_pos (show truthy (some (160 : ℚ)) ∧ truthy (some (150 : ℚ)) by decide)]
    rfl
  have he2 : (generate_comparison_table recB recA profM).triglycerides =
      some { start_value := 150, end_value := 160, diff := 160 - 150,
             text := get_comparison_text (160 - 150),
             color := (labStatusColor tgBand (some 160)).getD "#6c757d" } := by
    show labCompare (some 150) (some 160) (labStatusColor tgBand (some 160)) = _
    unfold labCompare
    rw [if_pos (show truthy (some (150 : ℚ)) ∧ truthy (some (160 : ℚ)) by decide)]
    rfl
  exact ⟨(c7_delta_negation recA recB profM).1,
    (c7_delta_negation recA recB profM).2.2.2.2.2.2.2.2.2.2.2 _ _ he1 he2⟩

end HealthApp
